import Mathlib

/-!
Verification of the live-preview synchronization and persistence pipeline of
`src/src/components/LiveCodeEditor.jsx` (the repository's single source file).

The component's pure parts (default buffer contents, the startup load from
localStorage, the localStorage write sequence, the preview template `srcDoc`,
the export template `fullHtml`, and the status-message classification of the
status bar) are embedded as executable Lean functions, translated entry by
entry from the JSX source.

The stateful parts (the lodash-debounced `saveToLocalStorage`, the
`useCallback`/`useEffect` wiring that recreates the debounced function whenever
any of `htmlCode`, `cssCode`, `jsCode`, `darkMode` changes, `handleSave`'s
`flush`, `handleDownload`, and the `setTimeout` message-clearing timers) are
embedded as explicit state-transition functions on an `EditorState` record.
Storage failures (`localStorage.setItem` throwing, e.g. on quota) are made
explicit as a failure plan argument: `none` means every `setItem` call
succeeds, `some (k, m)` means the k-th `setItem` call of that write throws an
error whose `message` is `m` (so the calls before it have already taken
effect).

Braces and apostrophes occurring in the JavaScript/HTML template text are
written with the escapes `\x7b`, `\x7d`, `\x27` inside Lean string literals.
-/

/-- The in-memory Document: the three text buffers and the dark-mode flag,
mirroring the `useState` hooks `htmlCode`, `cssCode`, `jsCode`, `darkMode`. -/
structure Doc where
  htmlCode : String
  cssCode : String
  jsCode : String
  darkMode : Bool
deriving DecidableEq, Repr

/-- The `useState` initial values (LiveCodeEditor.jsx lines 13-18). -/
def defaultDoc : Doc :=
  { htmlCode := "<h1>Hello, World!</h1>"
    cssCode := "h1 \x7b color: red; \x7d"
    jsCode := "function func() \x7b \n   alert(\x27Hello\x27);\n\x7d"
    darkMode := true }

/-- The persisted snapshot: the four localStorage entries
`live-editor-html`, `live-editor-css`, `live-editor-js`,
`live-editor-dark-mode`; `none` models a missing key (`getItem` = null). -/
structure Store where
  html : Option String
  css : Option String
  js : Option String
  mode : Option String
deriving DecidableEq, Repr

/-- JavaScript `Boolean.prototype.toString`, used by
`localStorage.setItem('live-editor-dark-mode', darkMode.toString())`. -/
def boolToString (b : Bool) : String := if b then "true" else "false"

/-- One text-buffer branch of the load effect (lines 30-32):
`if (savedX) setX(savedX)` — the stored value replaces the default exactly
when the entry is present and truthy, and the empty string is falsy, so a
present-but-empty entry leaves the default in place. -/
def loadField (entry : Option String) (dflt : String) : String :=
  match entry with
  | some v => if v = "" then dflt else v
  | none => dflt

/-- The startup load effect (lines 24-34): per-field fallback for the three
buffers, and `if (savedDarkMode !== null) setDarkMode(savedDarkMode === 'true')`
for the mode flag. -/
def loadSnapshot (st : Store) : Doc :=
  { htmlCode := loadField st.html defaultDoc.htmlCode
    cssCode := loadField st.css defaultDoc.cssCode
    jsCode := loadField st.js defaultDoc.jsCode
    darkMode :=
      match st.mode with
      | some v => v == "true"
      | none => defaultDoc.darkMode }

/-- The snapshot left by a fully successful run of the write body
(lines 39-42): all four entries replaced from the Document. -/
def writeAll (d : Doc) : Store :=
  { html := some d.htmlCode
    css := some d.cssCode
    js := some d.jsCode
    mode := some (boolToString d.darkMode) }

/-- The snapshot left when only the first `k` of the four `setItem` calls of
the write body have executed (the calls run in the order html, css, js, mode;
a call that throws aborts the rest). -/
def writeFirst (d : Doc) (st : Store) (k : Nat) : Store :=
  { html := if 0 < k then some d.htmlCode else st.html
    css := if 1 < k then some d.cssCode else st.css
    js := if 2 < k then some d.jsCode else st.js
    mode := if 3 < k then some (boolToString d.darkMode) else st.mode }

/-- Status text set by the catch branch of the write body (line 46). -/
def failedToSaveMsg (m : String) : String := "Failed to save: " ++ m

/-- Status text set by `handleSave` (line 102). -/
def savedOkMsg : String := "Code saved successfully!"

/-- Status text set by the catch branch of the preview memo (line 94). -/
def previewErrorMsg (m : String) : String := "Error generating preview: " ++ m

/-- Status text set by `handleDownload` on success (line 141). -/
def downloadedOkMsg : String := "Downloaded successfully!"

/-- Status text set by the catch branch of `handleDownload` (line 144). -/
def downloadFailedMsg (m : String) : String := "Download failed: " ++ m

/-- Boolean matcher: does `needle` occur as a leading run of `hay`? -/
def listPrefixOf : List Char → List Char → Bool
  | [], _ => true
  | _ :: _, [] => false
  | a :: as, b :: bs => a == b && listPrefixOf as bs

/-- Boolean matcher: does `needle` occur contiguously anywhere in `hay`? -/
def listInfixOf (needle hay : List Char) : Bool :=
  match hay with
  | [] => needle.isEmpty
  | _ :: rest => listPrefixOf needle hay || listInfixOf needle rest

/-- Executable version of `String.prototype.includes`, used by the status-bar
classification on line 189. -/
def strContains (hay needle : String) : Bool := listInfixOf needle.data hay.data

/-- The status bar (line 189) renders the message with the error (red) style
exactly when `errorMsg.includes("Error") || errorMsg.includes("Failed")`. -/
def isErrorMsg (msg : String) : Bool := strContains msg "Error" || strContains msg "Failed"

/-- `needle` occurs verbatim and contiguously inside `hay`. -/
def ContainsStr (hay needle : String) : Prop := ∃ p q, hay = p ++ needle ++ q

/-!
The preview template (the `srcDoc` memo, lines 57-97).  The template literal
of lines 59-92 interpolates `cssCode`, `htmlCode` and `jsCode` into fixed
text; the fixed text between the interpolation points is transcribed below
chunk by chunk, whitespace included.  The surrounding `try` of lines 58-96
cannot fail — the body only interpolates strings — so the composition is
embedded as the total template assembly and the catch branch (generic
fallback artifact plus `previewErrorMsg`) is dead code.
-/

/-- Template text from the start of the literal up to the `${cssCode}`
interpolation point (lines 59-63). -/
def sdPre : String := "\n        <!DOCTYPE html>\n        <html>\n          <head>\n            <style>"

/-- Template text between `${cssCode}` and `${htmlCode}` (lines 63-66). -/
def sdMid1 : String := "</style>\n          </head>\n          <body>\n            "

/-- Template text between `${htmlCode}` and `${jsCode}` (lines 66-85): the
script open tag, the injected `window.onerror` banner handler, and the
opening of the `try` wrapper around the user script. -/
def sdTrap : String := "\n            <script>\n              // Error handling wrapper\n              window.onerror = function(message, source, lineno, colno, error) \x7b\n                const errorElement = document.createElement(\x27div\x27);\n                errorElement.style.position = \x27fixed\x27;\n                errorElement.style.bottom = \x270\x27;\n                errorElement.style.left = \x270\x27;\n                errorElement.style.right = \x270\x27;\n                errorElement.style.backgroundColor = \x27rgba(255, 0, 0, 0.7)\x27;\n                errorElement.style.color = \x27white\x27;\n                errorElement.style.padding = \x278px\x27;\n                errorElement.style.fontSize = \x2714px\x27;\n                errorElement.textContent = \x27JavaScript Error: \x27 + message;\n                document.body.appendChild(errorElement);\n                return true; // Prevents the default error handling\n              \x7d;\n              // User JS code\n              try \x7b\n                "

/-- Template text after `${jsCode}` (lines 85-92): the closing of the `try`
wrapper, the catch reporting to the console, and the closing tags. -/
def sdSuf : String := "\n              \x7d catch(e) \x7b\n                console.error(\x27Error in user JavaScript:\x27, e);\n              \x7d\n            </script>\n          </body>\n        </html>\n      "

/-- The renderable preview document (the `srcDoc` memo, lines 57-97), as a
total function of the three buffers. -/
def srcDoc (m s j : String) : String := sdPre ++ s ++ sdMid1 ++ m ++ sdTrap ++ j ++ sdSuf

/-!
The export template (`fullHtml` inside `handleDownload`, lines 110-128).
-/

/-- Export template text up to the `${cssCode}` interpolation point
(lines 110-117). -/
def fhPre : String := "\n<!DOCTYPE html>\n<html>\n<head>\n  <meta charset=\"UTF-8\">\n  <meta name=\"viewport\" content=\"width=device-width, initial-scale=1.0\">\n  <title>Live Code Editor Export</title>\n  <style>\n"

/-- Export template text between `${cssCode}` and `${htmlCode}`
(lines 118-121). -/
def fhMid1 : String := "\n  </style>\n</head>\n<body>\n"

/-- Export template text between `${htmlCode}` and `${jsCode}`
(lines 122-123). -/
def fhMid2 : String := "\n  <script>\n"

/-- Export template text after `${jsCode}` (lines 124-128). -/
def fhSuf : String := "\n  </script>\n</body>\n</html>\n"

/-- The standalone export document (`fullHtml`, lines 110-128), as a total
function of the three buffers. -/
def fullHtml (m s j : String) : String := fhPre ++ s ++ fhMid1 ++ m ++ fhMid2 ++ j ++ fhSuf

/-!
The stateful part of the component.  A `useCallback`-memoised lodash
`debounce` instance is recreated whenever any of `htmlCode`, `cssCode`,
`jsCode`, `darkMode` changes (line 48's dependency array), so every edit
supersedes the previous instance; a superseded instance whose timer is still
pending keeps that timer — nothing cancels it — and its closure still holds
the buffer values from before the edit.  The current instance's closure
always holds the current buffer values, because the instance is recreated at
every change of those values.
-/

/-- The component state: the Document, the status message (`errorMsg`), the
dirty flag (`codeChanged`), the pending timer of the current debounce
instance (deadline, if scheduled), the still-pending timers of superseded
debounce instances (each with the Document its closure captured), the
deadlines of pending `setTimeout(() => setErrorMsg(""), 2000)` calls, the
localStorage contents, a count of executed write bodies, and the current
time in milliseconds. -/
structure EditorState where
  doc : Doc
  errorMsg : String
  codeChanged : Bool
  curPending : Option Nat
  stale : List (Doc × Nat)
  msgTimers : List Nat
  store : Store
  writeCount : Nat
  now : Nat
deriving DecidableEq, Repr

/-- A quiescent state: Document `d`, snapshot `st`, no pending timers, no
status message, at time 0. -/
def mkState (d : Doc) (st : Store) : EditorState :=
  { doc := d, errorMsg := "", codeChanged := false, curPending := none,
    stale := [], msgTimers := [], store := st, writeCount := 0, now := 0 }

/-- The body of the debounced write (lines 38-47), executed with the closure
Document `d`: the four `setItem` calls in order, then `setCodeChanged(false)`
and `setErrorMsg("")`; if the `fp`-th call throws, the earlier calls keep
their effect and the catch branch sets the failure message instead. -/
def runSaveBody (d : Doc) (fp : Option (Nat × String)) (s : EditorState) : EditorState :=
  match fp with
  | none =>
      { s with store := writeAll d, codeChanged := false, errorMsg := "",
               writeCount := s.writeCount + 1 }
  | some (k, m) =>
      { s with store := writeFirst d s.store k, errorMsg := failedToSaveMsg m,
               writeCount := s.writeCount + 1 }

/-- A buffer or mode-flag change at time `t` setting the Document to `d`
(one of the `useState` setters firing): the render recreates the debounce
instance (line 48's dependency array changed), leaving any pending timer of
the old instance orphaned with its old closure, and the auto-save effect
(lines 51-54) sets `codeChanged` and calls the new instance, scheduling its
timer 1000 ms out. -/
def editStep (d : Doc) (t : Nat) (s : EditorState) : EditorState :=
  { s with doc := d, now := t, codeChanged := true,
           curPending := some (t + 1000),
           stale := match s.curPending with
                    | some dl => s.stale ++ [(s.doc, dl)]
                    | none => s.stale }

/-- `handleSave` at time `t` (lines 100-104): `saveToLocalStorage.flush()`
runs the current instance's pending write immediately (lodash `flush` invokes
the body only when an invocation is pending, and cancels that timer); then
`setErrorMsg("Code saved successfully!")` and a 2000 ms clear timer.  Timers
of superseded instances are untouched. -/
def handleSave (t : Nat) (fp : Option (Nat × String)) (s : EditorState) : EditorState :=
  let s1 :=
    match s.curPending with
    | some _ => runSaveBody s.doc fp { s with curPending := none, now := t }
    | none => { s with now := t }
  { s1 with errorMsg := savedOkMsg, msgTimers := s1.msgTimers ++ [t + 2000] }

/-- `handleDownload` at time `t` (lines 107-146): on success sets the success
message and a 2000 ms clear timer; if the try body throws with message `m`,
the catch sets the failure message and schedules no clear timer. -/
def handleDownload (t : Nat) (failure : Option String) (s : EditorState) : EditorState :=
  match failure with
  | none =>
      { s with now := t, errorMsg := downloadedOkMsg,
               msgTimers := s.msgTimers ++ [t + 2000] }
  | some m =>
      { s with now := t, errorMsg := downloadFailedMsg m }

/-- The current debounce instance's timer fires at its deadline: the write
body runs with the current Document (the instance's closure values). -/
def fireCur (fp : Option (Nat × String)) (s : EditorState) : EditorState :=
  match s.curPending with
  | some dl => runSaveBody s.doc fp { s with curPending := none, now := dl }
  | none => s

/-- The earliest orphaned timer of a superseded debounce instance fires: the
write body runs with that instance's closure Document. -/
def fireStale (fp : Option (Nat × String)) (s : EditorState) : EditorState :=
  match s.stale with
  | [] => s
  | (d, dl) :: rest => runSaveBody d fp { s with stale := rest, now := dl }

/-- The earliest pending `setTimeout(() => setErrorMsg(""), 2000)` fires,
clearing whatever message is currently displayed. -/
def fireMsg (s : EditorState) : EditorState :=
  match s.msgTimers with
  | [] => s
  | dl :: rest => { s with errorMsg := "", msgTimers := rest, now := dl }

/-!
Concrete scenario states used by the counterexamples and evaluations below.
-/

/-- A first edited Document. -/
def d1 : Doc := { htmlCode := "<p>one</p>", cssCode := "p \x7b color: blue; \x7d", jsCode := "console.log(1)", darkMode := true }

/-- A second, different edited Document. -/
def d2 : Doc := { htmlCode := "<p>two</p>", cssCode := "p \x7b color: blue; \x7d", jsCode := "console.log(1)", darkMode := true }

/-- Quiescent start: defaults everywhere, snapshot in sync. -/
def s0 : EditorState := mkState defaultDoc (writeAll defaultDoc)

/-- Two rapid edits: to `d1` at t = 0 ms and to `d2` at t = 500 ms, inside
one 1000 ms debounce window. -/
def afterEdits : EditorState := editStep d2 500 (editStep d1 0 s0)

/-- A failed auto-save: edit to `d1` at t = 0, then the debounce timer fires
at t = 1000 and its very first `setItem` call throws with message "quota". -/
def failedSaveState : EditorState := fireCur (some (0, "quota")) (editStep d1 0 s0)

/-!
Named splits of the preview-template chunks, used by the decompositions in
the theorems below; the equalities `sdTrap = sdTrapA ++ tryOpen` and
`sdSuf = catchOpen ++ sdSufTail` are checked definitionally.
-/

/-- `sdTrap` without its final `try {` opener: the script open tag and the
complete `window.onerror` banner handler. -/
def sdTrapA : String := "\n            <script>\n              // Error handling wrapper\n              window.onerror = function(message, source, lineno, colno, error) \x7b\n                const errorElement = document.createElement(\x27div\x27);\n                errorElement.style.position = \x27fixed\x27;\n                errorElement.style.bottom = \x270\x27;\n                errorElement.style.left = \x270\x27;\n                errorElement.style.right = \x270\x27;\n                errorElement.style.backgroundColor = \x27rgba(255, 0, 0, 0.7)\x27;\n                errorElement.style.color = \x27white\x27;\n                errorElement.style.padding = \x278px\x27;\n                errorElement.style.fontSize = \x2714px\x27;\n                errorElement.textContent = \x27JavaScript Error: \x27 + message;\n                document.body.appendChild(errorElement);\n                return true; // Prevents the default error handling\n              \x7d;\n              // User JS code\n              "

/-- The opener of the local `try` wrapper immediately preceding `${jsCode}`. -/
def tryOpen : String := "try \x7b\n                "

/-- The closer of the local `try` wrapper immediately following `${jsCode}`. -/
def catchOpen : String := "\n              \x7d catch(e) \x7b"

/-- `sdSuf` without its leading `} catch(e) {` closer. -/
def sdSufTail : String := "\n                console.error(\x27Error in user JavaScript:\x27, e);\n              \x7d\n            </script>\n          </body>\n        </html>\n      "

/-!
Helper lemmas: associativity of string append and the link between the
propositional `ContainsStr` and the executable `strContains`.
-/

theorem strAppendAssoc (a b c : String) : (a ++ b) ++ c = a ++ (b ++ c) := by
  cases a with
  | mk la =>
    cases b with
    | mk lb =>
      cases c with
      | mk lc =>
        show String.mk ((la ++ lb) ++ lc) = String.mk (la ++ (lb ++ lc))
        rw [List.append_assoc]

set_option maxRecDepth 16384

theorem sdTrap_split : sdTrap = sdTrapA ++ tryOpen := rfl

theorem sdSuf_split : sdSuf = catchOpen ++ sdSufTail := rfl

theorem containsStr_left (a : String) {b n : String} (h : ContainsStr b n) :
    ContainsStr (a ++ b) n := by
  obtain ⟨p, q, rfl⟩ := h
  exact ⟨a ++ p, q, by simp only [strAppendAssoc]⟩

theorem containsStr_head (n q : String) : ContainsStr (n ++ q) n := ⟨"", q, rfl⟩

theorem listPrefixOf_self_append (n q : List Char) : listPrefixOf n (n ++ q) = true := by
  induction n with
  | nil => rfl
  | cons a as ih => simp [listPrefixOf, ih]

theorem listInfixOf_nil_needle (hay : List Char) : listInfixOf [] hay = true := by
  cases hay with
  | nil => rfl
  | cons a rest => simp [listInfixOf, listPrefixOf]

theorem listInfixOf_append (p n q : List Char) : listInfixOf n (p ++ (n ++ q)) = true := by
  induction p with
  | nil =>
    cases n with
    | nil => exact listInfixOf_nil_needle q
    | cons a as =>
      simp only [List.nil_append, List.cons_append, listInfixOf, Bool.or_eq_true]
      exact Or.inl (listPrefixOf_self_append (a :: as) q)
  | cons a ps ih =>
    simp only [List.cons_append, listInfixOf, Bool.or_eq_true]
    exact Or.inr ih

theorem strContains_of_containsStr (hay needle : String) (h : ContainsStr hay needle) :
    strContains hay needle = true := by
  obtain ⟨p, q, rfl⟩ := h
  cases p with
  | mk lp =>
    cases needle with
    | mk ln =>
      cases q with
      | mk lq =>
        show listInfixOf ln ((lp ++ ln) ++ lq) = true
        rw [List.append_assoc]
        exact listInfixOf_append lp ln lq

theorem not_containsStr (hay needle : String) (h : strContains hay needle = false) :
    ¬ ContainsStr hay needle := by
  intro hc
  rw [strContains_of_containsStr hay needle hc] at h
  simp at h

/-- C3: for every markup, style and script buffer, composing the preview
artifact (`srcDoc`) is a total Lean function of the three buffers (the JSX
`try` around the template cannot fail, so composition never throws), and the
artifact embeds the style buffer verbatim inside a style block, the markup
buffer verbatim inside the body, and the script buffer verbatim between the
local `try` opener and `catch` closer, preceded in the artifact by the
injected global `window.onerror` trap; since this holds for every script
buffer, it holds in particular for `throw new Error("x")`, which therefore
cannot stop the markup and style content from appearing. -/
theorem srcDoc_embeds_buffers (m s j : String) :
    (∃ p q, srcDoc m s j = p ++ ("<style>" ++ s ++ "</style>") ++ q)
  ∧ (∃ p q, srcDoc m s j = p ++ m ++ q ∧ ContainsStr p "<body>" ∧ ContainsStr q "</body>")
  ∧ (∃ p q, srcDoc m s j = p ++ (tryOpen ++ j ++ catchOpen) ++ q ∧ ContainsStr p "window.onerror")
  ∧ ContainsStr (srcDoc m s j) "<!DOCTYPE html>" := by
  refine ⟨⟨"\n        <!DOCTYPE html>\n        <html>\n          <head>\n            ",
           "\n          </head>\n          <body>\n            " ++ m ++ sdTrap ++ j ++ sdSuf, ?_⟩,
          ⟨sdPre ++ s ++ sdMid1, sdTrap ++ j ++ sdSuf, ?_, ?_, ?_⟩,
          ⟨sdPre ++ s ++ sdMid1 ++ m ++ sdTrapA, sdSufTail, ?_, ?_⟩, ?_⟩
  · simp only [srcDoc, strAppendAssoc]
    try rfl
  · simp only [srcDoc, strAppendAssoc]
    try rfl
  · exact containsStr_left (sdPre ++ s)
      ⟨"</style>\n          </head>\n          ", "\n            ", rfl⟩
  · exact containsStr_left (sdTrap ++ j)
      ⟨"\n              \x7d catch(e) \x7b\n                console.error(\x27Error in user JavaScript:\x27, e);\n              \x7d\n            </script>\n          ", "\n        </html>\n      ", rfl⟩
  · simp only [srcDoc, strAppendAssoc]
    try rfl
  · exact containsStr_left (sdPre ++ s ++ sdMid1 ++ m)
      ⟨"\n            <script>\n              // Error handling wrapper\n              ",
       " = function(message, source, lineno, colno, error) \x7b\n                const errorElement = document.createElement(\x27div\x27);\n                errorElement.style.position = \x27fixed\x27;\n                errorElement.style.bottom = \x270\x27;\n                errorElement.style.left = \x270\x27;\n                errorElement.style.right = \x270\x27;\n                errorElement.style.backgroundColor = \x27rgba(255, 0, 0, 0.7)\x27;\n                errorElement.style.color = \x27white\x27;\n                errorElement.style.padding = \x278px\x27;\n                errorElement.style.fontSize = \x2714px\x27;\n                errorElement.textContent = \x27JavaScript Error: \x27 + message;\n                document.body.appendChild(errorElement);\n                return true; // Prevents the default error handling\n              \x7d;\n              // User JS code\n              ", rfl⟩
  · refine ⟨"\n        ", "\n        <html>\n          <head>\n            <style>" ++ s ++ sdMid1 ++ m ++ sdTrap ++ j ++ sdSuf, ?_⟩
    simp only [srcDoc, strAppendAssoc]
    try rfl

/-- C4: for every markup, style and script buffer, the export artifact
(`fullHtml`) carries the full page boilerplate (doctype, charset and viewport
metadata, title) and embeds the three buffers verbatim — the style buffer in
the style block and the markup buffer in the body, directly followed by the
script buffer inside a bare script block — and the fixed scaffold around the
buffers contains no sandbox shim (no `window.onerror` trap and no
`try`/`catch` text anywhere in the four fixed chunks); in particular the
export of markup `<h1>A</h1>`, style `h1{color:red}`, script `console.log(1)`
contains those three fragments verbatim and no shim text at all. -/
theorem fullHtml_embeds_buffers (m s j : String) :
    (∃ p q, fullHtml m s j = p ++ ("<style>\n" ++ s ++ "\n  </style>") ++ q)
  ∧ (∃ p q, fullHtml m s j = p ++ ("<body>\n" ++ m ++ "\n  <script>\n" ++ j ++ "\n  </script>") ++ q)
  ∧ ContainsStr (fullHtml m s j) "<!DOCTYPE html>"
  ∧ ContainsStr (fullHtml m s j) "<meta charset=\"UTF-8\">"
  ∧ ContainsStr (fullHtml m s j) "<meta name=\"viewport\" content=\"width=device-width, initial-scale=1.0\">"
  ∧ ContainsStr (fullHtml m s j) "<title>Live Code Editor Export</title>"
  ∧ (strContains fhPre "window.onerror" = false ∧ strContains fhMid1 "window.onerror" = false
   ∧ strContains fhMid2 "window.onerror" = false ∧ strContains fhSuf "window.onerror" = false)
  ∧ (strContains fhPre "try" = false ∧ strContains fhMid1 "try" = false
   ∧ strContains fhMid2 "try" = false ∧ strContains fhSuf "try" = false)
  ∧ (strContains fhPre "catch" = false ∧ strContains fhMid1 "catch" = false
   ∧ strContains fhMid2 "catch" = false ∧ strContains fhSuf "catch" = false)
  ∧ (strContains (fullHtml "<h1>A</h1>" "h1\x7bcolor:red\x7d" "console.log(1)") "<h1>A</h1>" = true
   ∧ strContains (fullHtml "<h1>A</h1>" "h1\x7bcolor:red\x7d" "console.log(1)") "h1\x7bcolor:red\x7d" = true
   ∧ strContains (fullHtml "<h1>A</h1>" "h1\x7bcolor:red\x7d" "console.log(1)") "console.log(1)" = true
   ∧ strContains (fullHtml "<h1>A</h1>" "h1\x7bcolor:red\x7d" "console.log(1)") "window.onerror" = false
   ∧ strContains (fullHtml "<h1>A</h1>" "h1\x7bcolor:red\x7d" "console.log(1)") "try" = false
   ∧ strContains (fullHtml "<h1>A</h1>" "h1\x7bcolor:red\x7d" "console.log(1)") "catch" = false) := by
  refine ⟨⟨"\n<!DOCTYPE html>\n<html>\n<head>\n  <meta charset=\"UTF-8\">\n  <meta name=\"viewport\" content=\"width=device-width, initial-scale=1.0\">\n  <title>Live Code Editor Export</title>\n  ",
           "\n</head>\n<body>\n" ++ m ++ fhMid2 ++ j ++ fhSuf, ?_⟩,
          ⟨fhPre ++ s ++ "\n  </style>\n</head>\n", "\n</body>\n</html>\n", ?_⟩,
          ⟨"\n", "\n<html>\n<head>\n  <meta charset=\"UTF-8\">\n  <meta name=\"viewport\" content=\"width=device-width, initial-scale=1.0\">\n  <title>Live Code Editor Export</title>\n  <style>\n" ++ s ++ fhMid1 ++ m ++ fhMid2 ++ j ++ fhSuf, ?_⟩,
          ⟨"\n<!DOCTYPE html>\n<html>\n<head>\n  ", "\n  <meta name=\"viewport\" content=\"width=device-width, initial-scale=1.0\">\n  <title>Live Code Editor Export</title>\n  <style>\n" ++ s ++ fhMid1 ++ m ++ fhMid2 ++ j ++ fhSuf, ?_⟩,
          ⟨"\n<!DOCTYPE html>\n<html>\n<head>\n  <meta charset=\"UTF-8\">\n  ", "\n  <title>Live Code Editor Export</title>\n  <style>\n" ++ s ++ fhMid1 ++ m ++ fhMid2 ++ j ++ fhSuf, ?_⟩,
          ⟨"\n<!DOCTYPE html>\n<html>\n<head>\n  <meta charset=\"UTF-8\">\n  <meta name=\"viewport\" content=\"width=device-width, initial-scale=1.0\">\n  ", "\n  <style>\n" ++ s ++ fhMid1 ++ m ++ fhMid2 ++ j ++ fhSuf, ?_⟩,
          by decide, by decide, by decide, by decide⟩
  · simp only [fullHtml, strAppendAssoc]
    try rfl
  · simp only [fullHtml, strAppendAssoc]
    try rfl
  · simp only [fullHtml, strAppendAssoc]
    try rfl
  · simp only [fullHtml, strAppendAssoc]
    try rfl
  · simp only [fullHtml, strAppendAssoc]
    try rfl
  · simp only [fullHtml, strAppendAssoc]
    try rfl

/-- C5 counterexample: the claim says a present entry is always taken from
storage, but a stored style entry holding the empty string (which is falsy in
JavaScript) is not restored — the default style survives. -/
theorem load_present_empty_entry_counterexample :
    (loadSnapshot { html := none, css := some "", js := none, mode := none }).cssCode ≠ ""
  ∧ (loadSnapshot { html := none, css := some "", js := none, mode := none }).cssCode
      = defaultDoc.cssCode := by decide

/-- C5 amended: startup fallback is per field independent, but a text buffer
is taken from storage only when its entry is present AND non-empty (a
present-but-empty entry falls back to the default, because the load guard is
JavaScript truthiness); the mode flag is taken from storage whenever its
entry is present and falls back only when it is missing. -/
theorem load_fallback_amended (st : Store) :
    (∀ v, st.html = some v → v ≠ "" → (loadSnapshot st).htmlCode = v)
  ∧ ((st.html = none ∨ st.html = some "") → (loadSnapshot st).htmlCode = defaultDoc.htmlCode)
  ∧ (∀ v, st.css = some v → v ≠ "" → (loadSnapshot st).cssCode = v)
  ∧ ((st.css = none ∨ st.css = some "") → (loadSnapshot st).cssCode = defaultDoc.cssCode)
  ∧ (∀ v, st.js = some v → v ≠ "" → (loadSnapshot st).jsCode = v)
  ∧ ((st.js = none ∨ st.js = some "") → (loadSnapshot st).jsCode = defaultDoc.jsCode)
  ∧ (∀ v, st.mode = some v → (loadSnapshot st).darkMode = (v == "true"))
  ∧ (st.mode = none → (loadSnapshot st).darkMode = defaultDoc.darkMode) := by
  refine ⟨?_, ?_, ?_, ?_, ?_, ?_, ?_, ?_⟩
  · intro v h hv
    simp [loadSnapshot, loadField, h, hv]
  · rintro (h | h) <;> simp [loadSnapshot, loadField, h]
  · intro v h hv
    simp [loadSnapshot, loadField, h, hv]
  · rintro (h | h) <;> simp [loadSnapshot, loadField, h]
  · intro v h hv
    simp [loadSnapshot, loadField, h, hv]
  · rintro (h | h) <;> simp [loadSnapshot, loadField, h]
  · intro v h
    simp [loadSnapshot, h]
  · intro h
    simp [loadSnapshot, h]

/-- C5 witness: a snapshot with markup entry "x", no style entry, an empty
script entry and mode entry "false" loads as: markup from storage, style and
script at their defaults, mode parsed from storage. -/
theorem load_fallback_witness :
    (loadSnapshot { html := some "x", css := none, js := some "", mode := some "false" }).htmlCode = "x"
  ∧ (loadSnapshot { html := some "x", css := none, js := some "", mode := some "false" }).cssCode = defaultDoc.cssCode
  ∧ (loadSnapshot { html := some "x", css := none, js := some "", mode := some "false" }).jsCode = defaultDoc.jsCode
  ∧ (loadSnapshot { html := some "x", css := none, js := some "", mode := some "false" }).darkMode = ("false" == "true") := by
  have h := load_fallback_amended { html := some "x", css := none, js := some "", mode := some "false" }
  exact ⟨h.1 "x" rfl (by decide), h.2.2.2.1 (Or.inl rfl), h.2.2.2.2.2.1 (Or.inr rfl),
         h.2.2.2.2.2.2.1 "false" rfl⟩

/-- C9: at startup a stored markup, style or script entry holding the empty
string is treated as if absent — the buffer falls back to the non-empty
built-in default — while the mode flag never falls back when its entry is
present (it is parsed as equality with "true", so an empty entry yields
`false`, not the default); consequently persisting a Document with an emptied
buffer and reloading does not restore the empty buffer. -/
theorem load_empty_entry_as_absent (st : Store) (d : Doc) :
    (st.html = some "" → (loadSnapshot st).htmlCode = defaultDoc.htmlCode)
  ∧ (st.css = some "" → (loadSnapshot st).cssCode = defaultDoc.cssCode)
  ∧ (st.js = some "" → (loadSnapshot st).jsCode = defaultDoc.jsCode)
  ∧ (∀ v, st.mode = some v → (loadSnapshot st).darkMode = (v == "true"))
  ∧ (d.htmlCode = "" → (loadSnapshot (writeAll d)).htmlCode = defaultDoc.htmlCode)
  ∧ (d.cssCode = "" → (loadSnapshot (writeAll d)).cssCode = defaultDoc.cssCode)
  ∧ (d.jsCode = "" → (loadSnapshot (writeAll d)).jsCode = defaultDoc.jsCode) := by
  refine ⟨?_, ?_, ?_, ?_, ?_, ?_, ?_⟩
  · intro h
    simp [loadSnapshot, loadField, h]
  · intro h
    simp [loadSnapshot, loadField, h]
  · intro h
    simp [loadSnapshot, loadField, h]
  · intro v h
    simp [loadSnapshot, h]
  · intro h
    simp [loadSnapshot, loadField, writeAll, h]
  · intro h
    simp [loadSnapshot, loadField, writeAll, h]
  · intro h
    simp [loadSnapshot, loadField, writeAll, h]

/-- C9 witness: an all-empty-entries snapshot loads with all three buffer
defaults and mode `false`; saving a Document with an emptied style buffer and
reloading restores the default style, not the empty one. -/
theorem load_empty_entry_witness :
    (loadSnapshot { html := some "", css := some "", js := some "", mode := some "" }).htmlCode = defaultDoc.htmlCode
  ∧ (loadSnapshot { html := some "", css := some "", js := some "", mode := some "" }).cssCode = defaultDoc.cssCode
  ∧ (loadSnapshot { html := some "", css := some "", js := some "", mode := some "" }).jsCode = defaultDoc.jsCode
  ∧ (loadSnapshot { html := some "", css := some "", js := some "", mode := some "" }).darkMode = ("" == "true")
  ∧ (loadSnapshot (writeAll { htmlCode := "<h1>Hi</h1>", cssCode := "", jsCode := "x()", darkMode := true })).cssCode = defaultDoc.cssCode := by
  have h := load_empty_entry_as_absent
    { html := some "", css := some "", js := some "", mode := some "" }
    { htmlCode := "<h1>Hi</h1>", cssCode := "", jsCode := "x()", darkMode := true }
  exact ⟨h.1 rfl, h.2.1 rfl, h.2.2.1 rfl, h.2.2.2.1 "" rfl, h.2.2.2.2.2.1 rfl⟩

/-- C6 counterexample: the claim says no execution of the write persists a
strict subset of the four fields, but the write body issues four separate
`setItem` calls in a single try block, so a call that throws mid-sequence
(here: the second call, for the style entry) leaves the markup entry updated
while style, script and mode keep their previous stored values — a state that
is neither the old snapshot nor the new one. -/
theorem write_partial_counterexample :
    (runSaveBody d1 (some (1, "QuotaExceeded")) (mkState d1 (writeAll defaultDoc))).store
      = { html := some d1.htmlCode, css := some defaultDoc.cssCode,
          js := some defaultDoc.jsCode, mode := some (boolToString defaultDoc.darkMode) }
  ∧ (runSaveBody d1 (some (1, "QuotaExceeded")) (mkState d1 (writeAll defaultDoc))).store
      ≠ writeAll defaultDoc
  ∧ (runSaveBody d1 (some (1, "QuotaExceeded")) (mkState d1 (writeAll defaultDoc))).store
      ≠ writeAll d1 := by decide

/-- C6 amended: each write sets the four entries together in one operation;
when every `setItem` call succeeds the result is a total replacement (all
four entries come from the Document, independent of the previous snapshot),
but a write whose k-th call throws leaves the first k entries updated and the
remaining entries at their previous stored values, so a failing write can
leave a partial-field update behind. -/
theorem write_replacement_amended (d : Doc) (s1 s2 : EditorState) (k : Nat) (msg : String) :
    ((runSaveBody d none s1).store = writeAll d
   ∧ (runSaveBody d none s1).store = (runSaveBody d none s2).store)
  ∧ (k < 4 →
      ((runSaveBody d (some (k, msg)) s1).store.html = if 0 < k then some d.htmlCode else s1.store.html)
    ∧ ((runSaveBody d (some (k, msg)) s1).store.css = if 1 < k then some d.cssCode else s1.store.css)
    ∧ ((runSaveBody d (some (k, msg)) s1).store.js = if 2 < k then some d.jsCode else s1.store.js)
    ∧ ((runSaveBody d (some (k, msg)) s1).store.mode = if 3 < k then some (boolToString d.darkMode) else s1.store.mode)) :=
  ⟨⟨rfl, rfl⟩, fun _ => ⟨rfl, rfl, rfl, rfl⟩⟩

/-- C6 witness: a successful write replaces the whole snapshot, and a write
failing at the second call updates the markup entry but not the style entry. -/
theorem write_replacement_witness :
    (runSaveBody d1 none s0).store = writeAll d1
  ∧ ((runSaveBody d1 (some (1, "boom")) s0).store.css = if 1 < 1 then some d1.cssCode else s0.store.css) := by
  have h := write_replacement_amended d1 s0 s0 1 "boom"
  exact ⟨h.1.1, (h.2 (by decide)).2.1⟩

/-- C8: evaluation of the status-bar classification on the messages the
component produces.  The save-failure and preview-failure texts are rendered
as errors and the success texts as informational, as the claim says, but the
export-failure text "Download failed: ..." contains neither "Error" nor
"Failed" (the check is case-sensitive and the text says "failed"), so a
failure-path message is rendered as informational — the claim is false on
the code. -/
theorem status_classification_eval :
    isErrorMsg (downloadFailedMsg "oops") = false
  ∧ isErrorMsg (failedToSaveMsg "oops") = true
  ∧ isErrorMsg (previewErrorMsg "oops") = true
  ∧ isErrorMsg savedOkMsg = false
  ∧ isErrorMsg downloadedOkMsg = false := by decide

/-- C10: whatever the state, the time, and the outcome of the flushed write
(including a write whose very first `setItem` throws — the catch sets the
"Failed to save" message), `handleSave` then unconditionally overwrites the
status with "Code saved successfully!", so the user sees a success message
even when persistence failed. -/
theorem manual_save_always_reports_success (s : EditorState) (t : Nat)
    (fp : Option (Nat × String)) (k : Nat) (msg : String) :
    (handleSave t fp s).errorMsg = savedOkMsg
  ∧ (runSaveBody s.doc (some (k, msg)) s).errorMsg = failedToSaveMsg msg
  ∧ (handleSave t (some (k, msg)) s).errorMsg = savedOkMsg :=
  ⟨rfl, rfl, rfl⟩

/-- C1 counterexample: after edits to `d1` at t = 0 and `d2` at t = 500,
pressing Save at t = 700 flushes only the current debounce instance — the
snapshot momentarily equals the in-memory Document `d2` — but the orphaned
timer of the instance superseded at t = 500 is NOT cancelled (`stale` is
non-empty), and when it fires at t = 1000 it overwrites the snapshot with the
stale `d1`.  Moreover, after an already-fired failed write nothing is
pending, and Save at t = 2000 performs no write at all (lodash `flush` is a
no-op without a pending invocation), leaving the snapshot different from the
in-memory Document. -/
theorem manual_save_counterexample :
    (handleSave 700 none afterEdits).store = writeAll d2
  ∧ (handleSave 700 none afterEdits).stale = [(d1, 1000)]
  ∧ (fireStale none (handleSave 700 none afterEdits)).store = writeAll d1
  ∧ writeAll d1 ≠ writeAll d2
  ∧ (handleSave 2000 none failedSaveState).store = failedSaveState.store
  ∧ failedSaveState.store ≠ writeAll failedSaveState.doc := by decide

/-- C1 amended: when the current debounce instance has a pending write and
the storage calls succeed, the manual save persists a snapshot equal to the
in-memory Document at call time and cancels that instance's pending write;
but it does not cancel pending writes of debounce instances superseded by
earlier edits (they can fire later and overwrite the snapshot), and when no
write is pending on the current instance the manual save performs no write
at all. -/
theorem manual_save_amended (s : EditorState) (t dl : Nat) :
    (s.curPending = some dl →
        (handleSave t none s).store = writeAll s.doc
      ∧ (handleSave t none s).curPending = none
      ∧ (handleSave t none s).stale = s.stale)
  ∧ (s.curPending = none →
      ∀ fp, (handleSave t fp s).store = s.store ∧ (handleSave t fp s).stale = s.stale) := by
  constructor
  · intro h
    simp [handleSave, h, runSaveBody]
  · intro h fp
    simp [handleSave, h]

/-- C1 witness: after a single edit (write pending on the current instance),
Save at t = 5 persists exactly the edited Document, clears the pending write
and orphans nothing; in a quiescent state Save performs no write. -/
theorem manual_save_witness :
    (handleSave 5 none (editStep d1 0 s0)).store = writeAll d1
  ∧ (handleSave 5 none (editStep d1 0 s0)).curPending = none
  ∧ (handleSave 5 none (editStep d1 0 s0)).stale = []
  ∧ (handleSave 9 none s0).store = s0.store := by
  have h1 := (manual_save_amended (editStep d1 0 s0) 5 1000).1 rfl
  have h2 := (manual_save_amended s0 9 0).2 rfl none
  exact ⟨h1.1, h1.2.1, h1.2.2, h2.1⟩

/-- C2: evaluation at the failing input.  Two edits inside one debounce
window (t = 0 and t = 500) leave the first instance's timer orphaned but
still pending; it fires at t = 1000 and persists the first edit's state
`d1`, and the second instance's timer fires at t = 1500 and persists `d2`:
two writes execute, the first reflecting the first edit — the claim's
"exactly one write, of the second edit's state, the first being cancelled"
does not hold on the code. -/
theorem debounce_two_edits_two_writes :
    afterEdits.stale = [(d1, 1000)]
  ∧ afterEdits.curPending = some 1500
  ∧ (fireStale none afterEdits).store = writeAll d1
  ∧ (fireStale none afterEdits).writeCount = 1
  ∧ (fireCur none (fireStale none afterEdits)).store = writeAll d2
  ∧ (fireCur none (fireStale none afterEdits)).writeCount = 2
  ∧ writeAll d1 ≠ writeAll d2 := by decide

/-- C7 counterexample: the claim says no message persists indefinitely, but
the "Failed to save" message set by a failed debounced write schedules no
clearing timer (`setTimeout(() => setErrorMsg(""), 2000)` runs only in
`handleSave` and `handleDownload`'s success path), and in the resulting
quiescent state every timer event is a no-op, so the message stays until some
later user action supersedes it. -/
theorem status_message_no_expiry_counterexample :
    failedSaveState.errorMsg = failedToSaveMsg "quota"
  ∧ failedSaveState.msgTimers = []
  ∧ fireMsg failedSaveState = failedSaveState
  ∧ fireCur none failedSaveState = failedSaveState
  ∧ fireStale none failedSaveState = failedSaveState := by decide

/-- C7 amended: only the messages set by the manual save action and by a
successful export schedule their own removal, 2000 ms after the action, and
firing such a timer clears the displayed message; the write body itself
(hence any failure message it sets) schedules no removal, and a failed export
schedules no removal either, so failure messages persist until superseded. -/
theorem status_expiry_amended (s : EditorState) (t : Nat) (d : Doc)
    (fp : Option (Nat × String)) (m : String) :
    (∀ g, (handleSave t g s).msgTimers = s.msgTimers ++ [t + 2000])
  ∧ (handleDownload t none s).msgTimers = s.msgTimers ++ [t + 2000]
  ∧ (handleDownload t (some m) s).msgTimers = s.msgTimers
  ∧ (runSaveBody d fp s).msgTimers = s.msgTimers
  ∧ (s.msgTimers ≠ [] → (fireMsg s).errorMsg = "") := by
  refine ⟨?_, rfl, rfl, ?_, ?_⟩
  · intro g
    rcases h : s.curPending with _ | dl <;> rcases g with _ | ⟨k, mm⟩ <;>
      simp [handleSave, runSaveBody, h]
  · rcases fp with _ | ⟨k, mm⟩ <;> rfl
  · intro h
    rcases hm : s.msgTimers with _ | ⟨dl, rest⟩
    · exact absurd hm h
    · simp [fireMsg, hm]

/-- C7 witness: Save at t = 3 schedules a clear timer for t = 2003, and
firing it clears the success message. -/
theorem status_expiry_witness :
    (handleSave 3 none s0).msgTimers = s0.msgTimers ++ [3 + 2000]
  ∧ (fireMsg (handleSave 3 none s0)).errorMsg = "" := by
  have h1 := status_expiry_amended s0 3 d1 none "x"
  have h2 := status_expiry_amended (handleSave 3 none s0) 0 d1 none "x"
  exact ⟨h1.1 none, h2.2.2.2.2 (by decide)⟩
